import Mathlib

/-!
Shallow embedding of the credential and token-lifecycle subsystem of the
OpenClipREDUX backend (src/backend/auth/auth_handler.py,
src/backend/auth/auth_routes.py, src/backend/services/security.py,
src/backend/utils/security.py), with proofs settling the frozen claims.

Conventions: wall-clock instants are integers (seconds since the epoch).
External collaborators (redis, the jose JWT library, passlib, base64,
Fernet) are modelled by executable Lean functions reproducing the
behavior the code relies on; each such model carries a comment saying
what it models.
-/

namespace OpenClip

/-- Configuration values read by `AuthHandler.__init__`
(src/backend/config.py: `ACCESS_TOKEN_EXPIRE_MINUTES = 30`,
`REFRESH_TOKEN_EXPIRE_DAYS = 30`). -/
structure Config where
  access_token_expire_minutes : Int
  refresh_token_expire_days : Int
  deriving Repr, DecidableEq

/-- The payload of an access token as built by
`AuthHandler.create_access_token` (user claims plus `exp`, `iat`,
`type`, `jti`).  `jti` is optional because `decode_token` also receives
tokens whose payload lacks a `jti` field. -/
structure AccessPayload where
  user_id : String
  email : String
  roles : List String
  exp : Int
  iat : Int
  type_ : String
  jti : Option String
  deriving Repr, DecidableEq

/-- A token string as seen by the jose JWT library: either a string that
is not a decodable JWT at all (`malformed`), or a well-formed JWT whose
signature was produced with `key` and whose claims are `payload`. -/
inductive JWT where
  | malformed
  | signed (key : String) (payload : AccessPayload)
  deriving Repr, DecidableEq

/-- Error outcomes of the auth flows: one per distinct `HTTPException`
detail string raised in src/backend/auth/auth_handler.py, plus
`storageError` for an uncaught storage-layer exception propagating from
a failed `db.commit()` (the spec's `StorageError`). -/
inductive AuthError where
  | tokenRevoked
  | tokenExpired
  | invalidToken
  | invalidTokenPayload
  | invalidOrExpiredRefreshToken
  | userNotFoundOrInactive
  | storageError
  deriving Repr, DecidableEq

/-- One blacklist key in redis: written by
`redis_client.setex("blacklist:" ++ jti, ttl, "1")`; the key lives until
`expiresAt` (= write time + ttl). -/
structure BlacklistEntry where
  jti : String
  expiresAt : Int
  deriving Repr, DecidableEq

/-- The redis blacklist state: the set of live `blacklist:` keys. -/
structure Redis where
  blacklist : List BlacklistEntry
  deriving Repr, DecidableEq

/-- Models `redis_client.get("blacklist:" ++ j)` truthiness at instant
`now`: a key is present iff some entry for `j` has not yet expired. -/
def Redis.get (r : Redis) (j : String) (now : Int) : Bool :=
  r.blacklist.any (fun e => e.jti == j && decide (now < e.expiresAt))

/-- Models `redis_client.setex("blacklist:" ++ j, ttl, "1")` at instant
`now`: overwrites any previous entry for `j` with one expiring at
`now + ttl`. -/
def Redis.setex (r : Redis) (j : String) (ttl : Int) (now : Int) : Redis :=
  { blacklist := ⟨j, now + ttl⟩ :: r.blacklist.filter (fun e => e.jti != j) }

/-- `AuthHandler._extract_jti`: decode the token without signature
verification and return its `jti` claim; any failure (malformed token,
missing claim) yields `none` via the bare `except` clause. -/
def extract_jti : JWT → Option String
  | .malformed => none
  | .signed _ p => p.jti

/-- Models `jose.jwt.decode(token, secret, algorithms=[...])`: fails
with `JWTError` on a malformed token or a bad signature, with
`ExpiredSignatureError` when `exp < now`, and otherwise returns the
payload. -/
def jwtDecode (secret : String) (t : JWT) (now : Int) : Except AuthError AccessPayload :=
  match t with
  | .malformed => .error .invalidToken
  | .signed k p =>
    if k ≠ secret then .error .invalidToken
    else if p.exp < now then .error .tokenExpired
    else .ok p

/-- `AuthHandler.decode_token`: first extract the `jti` without
verification and reject if it is blacklisted (this `HTTPException` is
not a `JWTError`, so the surrounding `except` clauses do not catch it);
otherwise perform the verified decode.  When `_extract_jti` returns
`None` the blacklist lookup is skipped entirely. -/
def decode_token (secret : String) (r : Redis) (t : JWT) (now : Int) :
    Except AuthError AccessPayload :=
  match extract_jti t with
  | some j => if r.get j now then .error .tokenRevoked else jwtDecode secret t now
  | none => jwtDecode secret t now

/-- `AuthHandler.revoke_token` with `token_type="access"`: extract the
`jti` and, when present, blacklist it with
`ttl = access_token_expire_minutes * 60` (the full configured access
token lifetime); a token without a recoverable `jti` is left alone. -/
def revoke_token (cfg : Config) (r : Redis) (t : JWT) (now : Int) : Redis :=
  match extract_jti t with
  | some j => r.setex j (cfg.access_token_expire_minutes * 60) now
  | none => r

/-- Claim C4: if an access token's `jti` has been entered in the
revocation registry via `revoke_token` (and the entry is still live),
then `decode_token` fails with the revoked-token error — even when the
token's signature is valid and `now < exp`. -/
theorem c4_revoked_token_rejected
    (cfg : Config) (secret : String) (r : Redis) (p : AccessPayload)
    (j : String) (nowRev now : Int)
    (hj : p.jti = some j)
    (hlive : now < nowRev + cfg.access_token_expire_minutes * 60)
    (hfresh : now < p.exp) :
    decode_token secret (revoke_token cfg r (.signed secret p) nowRev)
        (.signed secret p) now = .error .tokenRevoked := by
  simp only [decode_token, revoke_token, extract_jti, hj]
  have hget :
      (Redis.setex r j (cfg.access_token_expire_minutes * 60) nowRev).get j now = true := by
    simp [Redis.get, Redis.setex, hlive]
  simp [hget]

/-- Witness for C4 at a concrete token and registry. -/
theorem c4_witness :
    decode_token "sk"
        (revoke_token ⟨30, 30⟩ ⟨[]⟩
          (.signed "sk" ⟨"u1", "a@b.c", [], 1800, 0, "access", some "J1"⟩) 0)
        (.signed "sk" ⟨"u1", "a@b.c", [], 1800, 0, "access", some "J1"⟩) 900
      = .error .tokenRevoked :=
  c4_revoked_token_rejected ⟨30, 30⟩ "sk" ⟨[]⟩
    ⟨"u1", "a@b.c", [], 1800, 0, "access", some "J1"⟩ "J1" 0 900
    rfl (by decide) (by decide)

/-- Claim C10: `_extract_jti` is total — it returns `none` exactly when
the unverified decode fails or the payload lacks a `jti` claim — and
whenever it returns `none`, `decode_token` ignores the revocation
registry entirely: its result is the same for any two registry states. -/
theorem c10_jti_gates_blacklist
    (secret : String) (t : JWT) (r r' : Redis) (now : Int) :
    (extract_jti t = none ↔
      (t = .malformed ∨ ∃ k p, t = .signed k p ∧ p.jti = none)) ∧
    (extract_jti t = none →
      decode_token secret r t now = decode_token secret r' t now) := by
  constructor
  · cases t with
    | malformed => simp [extract_jti]
    | signed k p =>
      simp only [extract_jti]
      constructor
      · intro h
        exact Or.inr ⟨k, p, rfl, h⟩
      · rintro (h | ⟨k', p', hp, hj⟩)
        · cases h
        · cases hp
          exact hj
  · intro h
    simp [decode_token, h]

/-- Witness for C10: a malformed token decodes identically whether the
registry is empty or holds a live entry. -/
theorem c10_witness :
    (extract_jti .malformed = none ↔
      (JWT.malformed = .malformed ∨
        ∃ k p, JWT.malformed = .signed k p ∧ p.jti = none)) ∧
    (extract_jti .malformed = none →
      decode_token "sk" ⟨[]⟩ .malformed 0 =
        decode_token "sk" ⟨[⟨"J1", 99⟩]⟩ .malformed 0) :=
  c10_jti_gates_blacklist "sk" .malformed ⟨[]⟩ ⟨[⟨"J1", 99⟩]⟩ 0

/-- A stored password hash string as passlib sees it: either a
well-formed bcrypt hash (recorded with the password it hashes, since the
embedding does not model the bcrypt digest itself), or a string that no
configured scheme can identify. -/
inductive StoredHash where
  | bcrypt (ofPassword : String)
  | malformed (text : String)
  deriving Repr, DecidableEq

/-- A row of the `refresh_tokens` table as created by
`AuthHandler.create_refresh_token` and queried/mutated by
`AuthHandler.refresh_access_token`.  Modelled from the spec: the
`RefreshToken` ORM class lives in `..models.database`, which is not
under src/; spec section 3 gives the record as
{token, subject_id, created_at, expires_at, revoked, revoked_at}. -/
structure RefreshRecord where
  token : String
  user_id : String
  expires_at : Int
  created_at : Int
  revoked : Bool
  revoked_at : Option Int
  deriving Repr, DecidableEq

/-- A row of the `users` table.  Modelled from the spec: the `User` ORM
class lives in `..models.database`, not under src/; spec section 3 gives
Identity as {id, email, password_hash, roles, is_active} and says it is
mutated on login (`last_login`). -/
structure UserRec where
  id : String
  email : String
  roles : List String
  is_active : Bool
  hashed_password : StoredHash
  last_login : Option Int
  deriving Repr, DecidableEq

/-- The relational store: the two tables the auth flows touch. -/
structure DB where
  users : List UserRec
  refresh_tokens : List RefreshRecord
  deriving Repr, DecidableEq

/-- The filter of the rotation query in `AuthHandler.refresh_access_token`:
`RefreshToken.token == refresh_token, RefreshToken.revoked == False,
RefreshToken.expires_at > now`. -/
def rotationQueryPred (rtok : String) (now : Int) (r : RefreshRecord) : Bool :=
  r.token == rtok && !r.revoked && decide (now < r.expires_at)

/-- The `.first()` of the rotation query: the first matching row. -/
def validRefreshQuery (db : DB) (rtok : String) (now : Int) : Option RefreshRecord :=
  db.refresh_tokens.find? (rotationQueryPred rtok now)

/-- Mutating the row returned by `.first()`: mark the first row matching
the query revoked, setting `revoked_at`; all other rows are untouched. -/
def markRevokedFirst (l : List RefreshRecord) (p : RefreshRecord → Bool) (now : Int) :
    List RefreshRecord :=
  match l with
  | [] => []
  | a :: l =>
    if p a then { a with revoked := true, revoked_at := some now } :: l
    else a :: markRevokedFirst l p now

/-- The revocation step of `refresh_access_token`
(`token_record.revoked = True; token_record.revoked_at = now; db.commit()`). -/
def revokeRefreshToken (db : DB) (rtok : String) (now : Int) : DB :=
  { db with refresh_tokens :=
      markRevokedFirst db.refresh_tokens (rotationQueryPred rtok now) now }

/-- The claims `AuthHandler.create_token_pair` builds from the user row. -/
structure TokenData where
  user_id : String
  email : String
  roles : List String
  deriving Repr, DecidableEq

/-- The `TokenPair` response model of src/backend/auth/auth_handler.py. -/
structure TokenPair where
  access_token : JWT
  refresh_token : String
  token_type : String
  expires_in : Int
  deriving Repr, DecidableEq

/-- `AuthHandler.create_access_token`: sign the claims plus
`exp = now + access_token_expire_minutes * 60`, `iat = now`,
`type = "access"` and a fresh `jti` (the call to
`secrets.token_urlsafe(16)` is modelled by the explicit `freshJti`
argument). -/
def create_access_token (cfg : Config) (secret : String) (d : TokenData)
    (now : Int) (freshJti : String) : JWT :=
  .signed secret
    { user_id := d.user_id, email := d.email, roles := d.roles,
      exp := now + cfg.access_token_expire_minutes * 60, iat := now,
      type_ := "access", jti := some freshJti }

/-- The row `AuthHandler.create_refresh_token` inserts:
`expires_at = now + refresh_token_expire_days` days, not revoked. -/
def newRefreshRecord (cfg : Config) (uid : String) (now : Int) (freshTok : String) :
    RefreshRecord :=
  { token := freshTok, user_id := uid,
    expires_at := now + cfg.refresh_token_expire_days * 86400,
    created_at := now, revoked := false, revoked_at := none }

/-- `AuthHandler.create_refresh_token`: generate an opaque token
(modelled by the explicit `freshTok` argument), insert its row, commit,
and return the token. -/
def create_refresh_token (cfg : Config) (uid : String) (db : DB) (now : Int)
    (freshTok : String) : String × DB :=
  (freshTok,
   { db with refresh_tokens := db.refresh_tokens ++ [newRefreshRecord cfg uid now freshTok] })

/-- `AuthHandler.create_token_pair`: build the access token from the
user row, persist a refresh token, and return both. -/
def create_token_pair (cfg : Config) (secret : String) (u : UserRec) (db : DB)
    (now : Int) (freshJti freshTok : String) : TokenPair × DB :=
  let d : TokenData := ⟨u.id, u.email, u.roles⟩
  let access := create_access_token cfg secret d now freshJti
  let (rt, db1) := create_refresh_token cfg u.id db now freshTok
  (⟨access, rt, "bearer", cfg.access_token_expire_minutes * 60⟩, db1)

/-- `AuthHandler.refresh_access_token` when every `db.commit()`
succeeds: look up a live record for the presented token; reject with
the invalid-or-expired error if none; reject if the owning user is
missing or inactive; otherwise mark the record revoked and issue a
fresh pair.  The session state is threaded explicitly, so error
outcomes return the store unchanged.  Commit outcomes are exposed by
`refresh_access_token_fallible`, which coincides with this definition
when no commit fails. -/
def refresh_access_token (cfg : Config) (secret : String) (db : DB) (rtok : String)
    (now : Int) (freshJti freshTok : String) : Except AuthError TokenPair × DB :=
  match validRefreshQuery db rtok now with
  | none => (.error .invalidOrExpiredRefreshToken, db)
  | some rec =>
    match db.users.find? (fun v => v.id == rec.user_id) with
    | none => (.error .userNotFoundOrInactive, db)
    | some u =>
      if !u.is_active then (.error .userNotFoundOrInactive, db)
      else
        let db1 := revokeRefreshToken db rtok now
        let (pair, db2) := create_token_pair cfg secret u db1 now freshJti freshTok
        (.ok pair, db2)

theorem create_token_pair_eq (cfg : Config) (secret : String) (u : UserRec) (db : DB)
    (now : Int) (fj ft : String) :
    create_token_pair cfg secret u db now fj ft =
      (⟨create_access_token cfg secret ⟨u.id, u.email, u.roles⟩ now fj, ft, "bearer",
         cfg.access_token_expire_minutes * 60⟩,
       { db with refresh_tokens := db.refresh_tokens ++ [newRefreshRecord cfg u.id now ft] }) :=
  rfl

/-- After marking the first live record for `R` revoked, no record for
`R` is left unrevoked — provided `R` appears on at most one row. -/
theorem markRevokedFirst_no_active (R : String) (now : Int) (r0 : RefreshRecord)
    (l : List RefreshRecord)
    (hu : l.countP (fun r => r.token == R) ≤ 1)
    (hf : l.find? (rotationQueryPred R now) = some r0) :
    ∀ x ∈ markRevokedFirst l (rotationQueryPred R now) now,
      x.token = R → x.revoked = true := by
  induction l with
  | nil => simp at hf
  | cons a l ih =>
    intro x hx hxtok
    by_cases ha : rotationQueryPred R now a = true
    · rw [markRevokedFirst, if_pos ha] at hx
      rcases List.mem_cons.mp hx with hxa | hxl
      · subst hxa; rfl
      · -- the head already had token R, so the tail cannot mention R again
        have hatok : a.token = R := by
          have := ha
          simp only [rotationQueryPred, Bool.and_eq_true, beq_iff_eq] at this
          exact this.1.1
        rw [List.countP_cons] at hu
        simp [hatok] at hu
        exact (hu x hxl hxtok).elim
    · rw [markRevokedFirst, if_neg ha] at hx
      have hf' : l.find? (rotationQueryPred R now) = some r0 := by
        rwa [List.find?_cons_of_neg _ ha] at hf
      rcases List.mem_cons.mp hx with hxa | hxl
      · -- x is the untouched head: then two rows would mention R
        exfalso
        have hr0 : r0 ∈ l := List.mem_of_find?_eq_some hf'
        have hr0tok : r0.token = R := by
          have := List.find?_some hf'
          simp only [rotationQueryPred, Bool.and_eq_true, beq_iff_eq] at this
          exact this.1.1
        have hatok : a.token = R := hxa ▸ hxtok
        rw [List.countP_cons] at hu
        simp [hatok] at hu
        exact hu r0 hr0 hr0tok
      · have hu' : l.countP (fun r => r.token == R) ≤ 1 :=
          le_trans (by rw [List.countP_cons]; exact Nat.le_add_right _ _) hu
        exact ih hu' hf' x hxl hxtok

/-- In the store produced by a successful rotation (revoked first match
plus the freshly inserted record), every record for `R` is revoked. -/
theorem rotated_tokens_revoked (cfg : Config) (db : DB) (R : String) (now : Int)
    (uid ft : String) (rec : RefreshRecord)
    (hu : db.refresh_tokens.countP (fun r => r.token == R) ≤ 1)
    (hft : ft ≠ R)
    (hq : db.refresh_tokens.find? (rotationQueryPred R now) = some rec) :
    ∀ x ∈ markRevokedFirst db.refresh_tokens (rotationQueryPred R now) now
        ++ [newRefreshRecord cfg uid now ft],
      x.token = R → x.revoked = true := by
  intro x hx hxtok
  rcases List.mem_append.mp hx with hx1 | hx2
  · exact markRevokedFirst_no_active R now rec db.refresh_tokens hu hq x hx1 hxtok
  · rw [List.mem_singleton] at hx2
    subst hx2
    simp only [newRefreshRecord] at hxtok
    exact absurd hxtok hft

/-- Inversion of a successful rotation: it can only arise from a live
record whose owner is an active user, and the resulting store is the
input store with that record revoked and the fresh record appended. -/
theorem refresh_access_token_ok_inv (cfg : Config) (secret : String) (db : DB)
    (R : String) (now : Int) (fj ft : String) (pair : TokenPair) (db2 : DB)
    (h1 : refresh_access_token cfg secret db R now fj ft = (.ok pair, db2)) :
    ∃ rec u, validRefreshQuery db R now = some rec ∧
      db.users.find? (fun v => v.id == rec.user_id) = some u ∧
      u.is_active = true ∧
      db2.refresh_tokens =
        markRevokedFirst db.refresh_tokens (rotationQueryPred R now) now
          ++ [newRefreshRecord cfg u.id now ft] := by
  unfold refresh_access_token at h1
  split at h1
  · simp at h1
  next rec hq =>
    split at h1
    · simp at h1
    next u hfu =>
      split at h1
      · simp at h1
      next ha =>
        simp only [create_token_pair_eq, Prod.mk.injEq, Except.ok.injEq] at h1
        obtain ⟨hpair, hdb⟩ := h1
        refine ⟨rec, u, hq, hfu, by simpa using ha, ?_⟩
        rw [← hdb]
        simp [revokeRefreshToken]

/-- Inversion of a failed rotation: every error outcome leaves the
store exactly as it was before the call. -/
theorem refresh_access_token_error_inv (cfg : Config) (secret : String) (db : DB)
    (R : String) (now : Int) (fj ft : String) (e : AuthError) (dbOut : DB)
    (h : refresh_access_token cfg secret db R now fj ft = (.error e, dbOut)) :
    dbOut = db := by
  unfold refresh_access_token at h
  split at h
  · exact (congrArg Prod.snd h).symm
  · split at h
    · exact (congrArg Prod.snd h).symm
    · split at h
      · exact (congrArg Prod.snd h).symm
      · simp [create_token_pair_eq] at h

/-- Claim C1: refresh-token rotation is single-use.  If `rotate(R)`
succeeds, then in the resulting store every record for `R` is revoked,
and a second `rotate(R)` — at any later (or any) instant, with any
fresh-token supply — fails with the invalid-or-expired-refresh-token
error.  The hypotheses say `R` occupies at most one row (the token
column is unique) and the freshly generated opaque token differs from
`R` (tokens are 256-bit random values). -/
theorem c1_rotation_single_use (cfg : Config) (secret : String) (db : DB)
    (R : String) (now now2 : Int) (fj ft fj2 ft2 : String)
    (pair : TokenPair) (db2 : DB)
    (hu : db.refresh_tokens.countP (fun r => r.token == R) ≤ 1)
    (hft : ft ≠ R)
    (h1 : refresh_access_token cfg secret db R now fj ft = (.ok pair, db2)) :
    (∀ x ∈ db2.refresh_tokens, x.token = R → x.revoked = true) ∧
    refresh_access_token cfg secret db2 R now2 fj2 ft2
      = (.error .invalidOrExpiredRefreshToken, db2) := by
  obtain ⟨rec, u, hq, hfu, ha, hdb2⟩ :=
    refresh_access_token_ok_inv cfg secret db R now fj ft pair db2 h1
  have hall : ∀ x ∈ db2.refresh_tokens, x.token = R → x.revoked = true := by
    rw [hdb2]
    exact rotated_tokens_revoked cfg db R now u.id ft rec hu hft hq
  refine ⟨hall, ?_⟩
  have hnone : validRefreshQuery db2 R now2 = none := by
    unfold validRefreshQuery
    rw [List.find?_eq_none]
    intro x hx hpx
    simp only [rotationQueryPred, Bool.and_eq_true, beq_iff_eq,
      Bool.not_eq_true'] at hpx
    have := hall x hx hpx.1.1
    rw [this] at hpx
    simp at hpx
  unfold refresh_access_token
  rw [hnone]

/-- `AuthHandler.refresh_access_token` with the outcomes of the
session's `db.commit()` calls made explicit.  The source commits twice,
in two separate transactions: commit #0 persists the revocation
(auth_handler.py line 182) and commit #1 persists the new refresh
record inside `create_refresh_token` (line 104).  A failed commit rolls
its own transaction back and raises, propagating to the caller as a
storage error — so a failure of commit #1 leaves the revocation of
commit #0 persisted, with no pair returned.  `commits` lists the
outcomes of successive commit calls (exhausted entries succeed). -/
def refresh_access_token_fallible (cfg : Config) (secret : String) (db : DB)
    (rtok : String) (now : Int) (freshJti freshTok : String) (commits : List Bool) :
    Except AuthError TokenPair × DB :=
  match validRefreshQuery db rtok now with
  | none => (.error .invalidOrExpiredRefreshToken, db)
  | some rec =>
    match db.users.find? (fun v => v.id == rec.user_id) with
    | none => (.error .userNotFoundOrInactive, db)
    | some u =>
      if !u.is_active then (.error .userNotFoundOrInactive, db)
      else if commits.getD 0 true = false then (.error .storageError, db)
      else
        let db1 := revokeRefreshToken db rtok now
        if commits.getD 1 true = false then (.error .storageError, db1)
        else
          let (pair, db2) := create_token_pair cfg secret u db1 now freshJti freshTok
          (.ok pair, db2)

/-- With no injected commit fault, the fallible model coincides with
`refresh_access_token`. -/
theorem refresh_access_token_fallible_agrees (cfg : Config) (secret : String)
    (db : DB) (rtok : String) (now : Int) (fj ft : String) :
    refresh_access_token_fallible cfg secret db rtok now fj ft []
      = refresh_access_token cfg secret db rtok now fj ft := by
  unfold refresh_access_token_fallible refresh_access_token
  cases hq : validRefreshQuery db rtok now with
  | none => rfl
  | some rec =>
    cases hfu : db.users.find? (fun v => v.id == rec.user_id) with
    | none => rfl
    | some u => cases hact : u.is_active <;> rfl

/-- A one-user, one-refresh-token store used by the concrete witnesses. -/
def sampleDB : DB :=
  { users := [⟨"u1", "a@b.c", [], true, .bcrypt "Right1!", none⟩],
    refresh_tokens := [⟨"R", "u1", 100, 0, false, none⟩] }

/-- The store after rotating "R" in `sampleDB` at instant 0. -/
def sampleDB2 : DB :=
  { users := [⟨"u1", "a@b.c", [], true, .bcrypt "Right1!", none⟩],
    refresh_tokens := [⟨"R", "u1", 100, 0, true, some 0⟩,
                       ⟨"F", "u1", 2592000, 0, false, none⟩] }

/-- The pair issued by that rotation. -/
def samplePair : TokenPair :=
  ⟨.signed "sk" ⟨"u1", "a@b.c", [], 1800, 0, "access", some "J"⟩, "F", "bearer", 1800⟩

/-- The store left behind when commit #1 fails while rotating "R" in
`sampleDB` at instant 0: the record is revoked, no pair was issued. -/
def c2PartialDB : DB :=
  { users := [⟨"u1", "a@b.c", [], true, .bcrypt "Right1!", none⟩],
    refresh_tokens := [⟨"R", "u1", 100, 0, true, some 0⟩] }

/-- Counterexample to claim C2: with commit outcomes [true, false] —
the revocation commit succeeds, the commit persisting the new refresh
record fails — the call fails with a storage error while R's record is
already revoked: an outcome in which R has been revoked but no pair is
returned, and R's record is not in its pre-call state. -/
theorem c2_counterexample :
    refresh_access_token_fallible ⟨30, 30⟩ "sk" sampleDB "R" 0 "J" "F" [true, false]
      = (.error .storageError, c2PartialDB) ∧
    (∀ x ∈ c2PartialDB.refresh_tokens, x.token = "R" → x.revoked = true) ∧
    c2PartialDB ≠ sampleDB :=
  ⟨rfl, by decide, by decide⟩

/-- Claim C2 amended: every rotation outcome is one of three — a
complete pair together with a store in which `R` is revoked; a failure
with the store untouched; or, exactly when the commit persisting the
new refresh record fails after the revocation commit, a storage-error
failure whose store already has `R` revoked with no pair returned.
The pair itself carries both tokens by construction
(`create_token_pair` has no partial result). -/
theorem c2_rotation_outcomes (cfg : Config) (secret : String) (db : DB)
    (R : String) (now : Int) (fj ft : String) (commits : List Bool)
    (hu : db.refresh_tokens.countP (fun r => r.token == R) ≤ 1)
    (hft : ft ≠ R) :
    (∃ pair db2,
        refresh_access_token_fallible cfg secret db R now fj ft commits
          = (.ok pair, db2) ∧
        ∀ x ∈ db2.refresh_tokens, x.token = R → x.revoked = true) ∨
    (∃ e, refresh_access_token_fallible cfg secret db R now fj ft commits
        = (.error e, db)) ∨
    (commits.getD 1 true = false ∧
     refresh_access_token_fallible cfg secret db R now fj ft commits
        = (.error .storageError, revokeRefreshToken db R now) ∧
     ∀ x ∈ (revokeRefreshToken db R now).refresh_tokens,
        x.token = R → x.revoked = true) := by
  cases hq : validRefreshQuery db R now with
  | none =>
    right; left
    exact ⟨.invalidOrExpiredRefreshToken, by simp [refresh_access_token_fallible, hq]⟩
  | some rec =>
    cases hfu : db.users.find? (fun v => v.id == rec.user_id) with
    | none =>
      right; left
      exact ⟨.userNotFoundOrInactive, by simp [refresh_access_token_fallible, hq, hfu]⟩
    | some u =>
      by_cases ha : u.is_active = true
      · by_cases hc1 : commits.getD 0 true = false
        · have hc1a : commits[0]?.getD true = false := by simpa using hc1
          right; left
          exact ⟨.storageError, by simp [refresh_access_token_fallible, hq, hfu, ha, hc1a]⟩
        · have hc1a : commits[0]?.getD true = true := by simpa using hc1
          have hrev : ∀ x ∈ (revokeRefreshToken db R now).refresh_tokens,
              x.token = R → x.revoked = true := by
            intro x hx hxtok
            exact markRevokedFirst_no_active R now rec db.refresh_tokens hu hq x
              (by simpa [revokeRefreshToken] using hx) hxtok
          by_cases hc2 : commits.getD 1 true = false
          · have hc2a : commits[1]?.getD true = false := by simpa using hc2
            right; right
            exact ⟨hc2,
              by simp [refresh_access_token_fallible, hq, hfu, ha, hc1a, hc2a], hrev⟩
          · have hc2a : commits[1]?.getD true = true := by simpa using hc2
            left
            refine ⟨⟨create_access_token cfg secret ⟨u.id, u.email, u.roles⟩ now fj,
                ft, "bearer", cfg.access_token_expire_minutes * 60⟩,
              { db with refresh_tokens :=
                  markRevokedFirst db.refresh_tokens (rotationQueryPred R now) now
                    ++ [newRefreshRecord cfg u.id now ft] }, ?_, ?_⟩
            · simp [refresh_access_token_fallible, hq, hfu, ha, hc1a, hc2a,
                create_token_pair_eq, revokeRefreshToken]
            · exact rotated_tokens_revoked cfg db R now u.id ft rec hu hft hq
      · right; left
        simp only [Bool.not_eq_true] at ha
        exact ⟨.userNotFoundOrInactive, by simp [refresh_access_token_fallible, hq, hfu, ha]⟩

/-- Witness for C1: a concrete successful rotation, after which every
record for "R" is revoked and a replay fails. -/
theorem c1_witness :
    (∀ x ∈ sampleDB2.refresh_tokens, x.token = "R" → x.revoked = true) ∧
    refresh_access_token ⟨30, 30⟩ "sk" sampleDB2 "R" 5 "J2" "F2"
      = (.error .invalidOrExpiredRefreshToken, sampleDB2) :=
  c1_rotation_single_use ⟨30, 30⟩ "sk" sampleDB "R" 0 5 "J" "F" "J2" "F2"
    samplePair sampleDB2 (by decide) (by decide) rfl

/-- Witness for the amended C2 at the concrete store of the
counterexample, under the same faulty commit schedule. -/
theorem c2_amended_witness :
    (∃ pair db2,
        refresh_access_token_fallible ⟨30, 30⟩ "sk" sampleDB "R" 0 "J" "F" [true, false]
          = (.ok pair, db2) ∧
        ∀ x ∈ db2.refresh_tokens, x.token = "R" → x.revoked = true) ∨
    (∃ e, refresh_access_token_fallible ⟨30, 30⟩ "sk" sampleDB "R" 0 "J" "F" [true, false]
        = (.error e, sampleDB)) ∨
    (List.getD [true, false] 1 true = false ∧
     refresh_access_token_fallible ⟨30, 30⟩ "sk" sampleDB "R" 0 "J" "F" [true, false]
        = (.error .storageError, revokeRefreshToken sampleDB "R" 0) ∧
     ∀ x ∈ (revokeRefreshToken sampleDB "R" 0).refresh_tokens,
        x.token = "R" → x.revoked = true) :=
  c2_rotation_outcomes ⟨30, 30⟩ "sk" sampleDB "R" 0 "J" "F" [true, false]
    (by decide) (by decide)

/-- The server-side state the auth routes touch: the redis blacklist
and the relational store. -/
structure ServerState where
  redis : Redis
  db : DB
  deriving Repr, DecidableEq

/-- `AuthHandler.get_current_user`: decode and validate the bearer
token, reject an empty `user_id` claim, then load the user row and
require it to be active. -/
def get_current_user (secret : String) (r : Redis) (db : DB) (t : JWT) (now : Int) :
    Except AuthError UserRec :=
  match decode_token secret r t now with
  | .error e => .error e
  | .ok p =>
    if p.user_id = "" then .error .invalidTokenPayload
    else
      match db.users.find? (fun u => u.id == p.user_id) with
      | none => .error .userNotFoundOrInactive
      | some u => if !u.is_active then .error .userNotFoundOrInactive else .ok u

/-- Modelled from the spec: `UserRepository.revoke_all_refresh_tokens`
lives in `..models.repositories`, which is not under src/; per the spec
(`POST /auth/logout` "revokes all of a user's refresh tokens") it marks
every refresh-token row of the given user revoked. -/
def revokeForUser (uid : String) (now : Int) (r : RefreshRecord) : RefreshRecord :=
  if r.user_id == uid then { r with revoked := true, revoked_at := some now } else r

def revoke_all_refresh_tokens (db : DB) (uid : String) (now : Int) : DB :=
  { db with refresh_tokens := db.refresh_tokens.map (revokeForUser uid now) }

/-- The `POST /auth/logout` route (src/backend/auth/auth_routes.py):
authenticate the caller via `get_current_user`, clear the refresh
cookie (not part of server state), and revoke all of the caller's
refresh tokens.  Note: nothing is written to the redis blacklist. -/
def logout (secret : String) (st : ServerState) (t : JWT) (now : Int) :
    Except AuthError ServerState :=
  match get_current_user secret st.redis st.db t now with
  | .error e => .error e
  | .ok u => .ok { st with db := revoke_all_refresh_tokens st.db u.id now }

/-- The state produced by `logout` on `sampleDB` with an empty
blacklist at instant 0. -/
def afterLogoutState : ServerState :=
  { redis := ⟨[]⟩,
    db := { users := [⟨"u1", "a@b.c", [], true, .bcrypt "Right1!", none⟩],
            refresh_tokens := [⟨"R", "u1", 100, 0, true, some 0⟩] } }

/-- Counterexample to claim C3: a logout performed with access token
`T` (jti "J1") succeeds, yet afterwards no revocation entry for "J1"
exists and `decode_token` still accepts `T` before its expiry. -/
theorem c3_counterexample :
    logout "sk" ⟨⟨[]⟩, sampleDB⟩
        (.signed "sk" ⟨"u1", "a@b.c", [], 1800, 0, "access", some "J1"⟩) 0
      = .ok afterLogoutState ∧
    afterLogoutState.redis.get "J1" 1 = false ∧
    decode_token "sk" afterLogoutState.redis
        (.signed "sk" ⟨"u1", "a@b.c", [], 1800, 0, "access", some "J1"⟩) 1
      = .ok ⟨"u1", "a@b.c", [], 1800, 0, "access", some "J1"⟩ :=
  ⟨rfl, rfl, rfl⟩

/-- Claim C3 amended: a successful logout leaves the revocation
registry untouched (so the presented access token validates exactly as
before); its server-side effect is to revoke every refresh-token row of
the authenticated user. -/
theorem c3_logout_revokes_only_refresh (secret : String) (st st' : ServerState)
    (t : JWT) (now : Int)
    (h : logout secret st t now = .ok st') :
    st'.redis = st.redis ∧
    decode_token secret st'.redis t now = decode_token secret st.redis t now ∧
    ∃ u, get_current_user secret st.redis st.db t now = .ok u ∧
      ∀ r ∈ st'.db.refresh_tokens, r.user_id = u.id → r.revoked = true := by
  unfold logout at h
  split at h
  · simp at h
  next u hget =>
    have hst : ({ st with db := revoke_all_refresh_tokens st.db u.id now } : ServerState) = st' := by
      simpa using h
    subst hst
    refine ⟨rfl, rfl, u, hget, ?_⟩
    intro r hr hruid
    simp only [revoke_all_refresh_tokens, List.mem_map] at hr
    obtain ⟨s, hs, hsr⟩ := hr
    unfold revokeForUser at hsr
    by_cases hcase : (s.user_id == u.id) = true
    · rw [if_pos hcase] at hsr
      rw [← hsr]
    · rw [if_neg hcase] at hsr
      subst hsr
      exact absurd (by simp [hruid]) hcase

/-- Witness for the amended C3 at the concrete logout above. -/
theorem c3_amended_witness :
    afterLogoutState.redis = Redis.mk [] ∧
    decode_token "sk" afterLogoutState.redis
        (.signed "sk" ⟨"u1", "a@b.c", [], 1800, 0, "access", some "J1"⟩) 0
      = decode_token "sk" ⟨[]⟩
          (.signed "sk" ⟨"u1", "a@b.c", [], 1800, 0, "access", some "J1"⟩) 0 ∧
    ∃ u, get_current_user "sk" ⟨[]⟩ sampleDB
        (.signed "sk" ⟨"u1", "a@b.c", [], 1800, 0, "access", some "J1"⟩) 0 = .ok u ∧
      ∀ r ∈ afterLogoutState.db.refresh_tokens, r.user_id = u.id → r.revoked = true :=
  c3_logout_revokes_only_refresh "sk" ⟨⟨[]⟩, sampleDB⟩ afterLogoutState
    (.signed "sk" ⟨"u1", "a@b.c", [], 1800, 0, "access", some "J1"⟩) 0 rfl

/-- Counterexample to claim C5: revoking at instant 900 an access token
that expires at 1800 writes a blacklist entry lasting until 2700 — a
ttl of 1800 seconds, the full configured lifetime — although only 900
seconds of token lifetime remain. -/
theorem c5_counterexample :
    (revoke_token ⟨30, 30⟩ ⟨[]⟩
        (.signed "sk" ⟨"u1", "a@b.c", [], 1800, 0, "access", some "J5"⟩) 900).blacklist
      = [⟨"J5", 2700⟩] ∧
    ¬ ((2700 : Int) - 900 ≤ 1800 - 900) :=
  ⟨rfl, by decide⟩

/-- Claim C5 amended: the blacklist entry written by `revoke_token` for
a token with a recoverable `jti` always expires a full configured
access-token lifetime after the revocation instant, irrespective of the
token's own `exp`. -/
theorem c5_ttl_is_full_lifetime (cfg : Config) (r : Redis) (k : String)
    (p : AccessPayload) (j : String) (now : Int)
    (hj : p.jti = some j) :
    (revoke_token cfg r (.signed k p) now).blacklist
      = ⟨j, now + cfg.access_token_expire_minutes * 60⟩ ::
          r.blacklist.filter (fun e => e.jti != j) := by
  simp [revoke_token, extract_jti, hj, Redis.setex]

/-- Witness for the amended C5 at the token revoked in the
counterexample. -/
theorem c5_amended_witness :
    (revoke_token ⟨30, 30⟩ ⟨[]⟩
        (.signed "sk" ⟨"u1", "a@b.c", [], 1800, 0, "access", some "J5"⟩) 900).blacklist
      = ⟨"J5", 900 + 30 * 60⟩ :: List.filter (fun e => e.jti != "J5") [] :=
  c5_ttl_is_full_lifetime ⟨30, 30⟩ ⟨[]⟩ "sk"
    ⟨"u1", "a@b.c", [], 1800, 0, "access", some "J5"⟩ "J5" 900 rfl

/-- Models passlib's `CryptContext(schemes=["bcrypt"]).verify`: compare
the password against a well-formed bcrypt hash; on a stored string that
no configured scheme can identify it raises `UnknownHashError` instead
of returning a boolean. -/
def cryptContextVerify (password : String) (h : StoredHash) : Except String Bool :=
  match h with
  | .bcrypt q => .ok (password == q)
  | .malformed _ => .error "UnknownHashError"

/-- `AuthHandler.verify_password`: a bare delegation to
`pwd_context.verify` — any library exception propagates to the caller. -/
def AuthHandler.verify_password (password : String) (h : StoredHash) :
    Except String Bool :=
  cryptContextVerify password h

/-- Models `hashlib.pbkdf2_hmac("sha256", password, salt, 100000).hex()`
symbolically: an injective salted digest. -/
def pbkdf2Hex (password salt : String) : String :=
  "pbkdf2-sha256$" ++ salt ++ "$" ++ password

/-- `SecurityService.verify_password` (src/backend/services/security.py):
recompute the salted digest and compare with the stored hex string; the
body is wrapped in a try/except returning `False`, so the function is
total and Bool-valued on every input. -/
def SecurityService.verify_password (password stored_hash salt : String) : Bool :=
  pbkdf2Hex password salt == stored_hash

/-- Counterexample to claim C6: `AuthHandler.verify_password` applied
to a malformed stored hash does not return `false` — it propagates the
library's `UnknownHashError`. -/
theorem c6_counterexample :
    AuthHandler.verify_password "secretpw" (.malformed "not-a-hash")
      = .error "UnknownHashError" :=
  rfl

/-- Claim C6 amended: `SecurityService.verify_password` is total and
fail-closed — any stored string that is not the recomputed digest
yields `false`, never an exception — while `AuthHandler.verify_password`
propagates `UnknownHashError` on every malformed stored hash. -/
theorem c6_verify_totality (password salt stored q : String)
    (hm : stored ≠ pbkdf2Hex password salt) :
    SecurityService.verify_password password stored salt = false ∧
    AuthHandler.verify_password password (.malformed q) = .error "UnknownHashError" := by
  refine ⟨?_, rfl⟩
  unfold SecurityService.verify_password
  exact beq_eq_false_iff_ne.mpr (Ne.symm hm)

/-- Witness for the amended C6 at a concrete password and garbage
stored hash. -/
theorem c6_amended_witness :
    SecurityService.verify_password "pw" "garbage" "s1" = false ∧
    AuthHandler.verify_password "pw" (.malformed "zzz") = .error "UnknownHashError" :=
  c6_verify_totality "pw" "s1" "garbage" "zzz" (by decide)

/-- One entry of `SecurityService.failed_attempts`
(src/backend/services/security.py). -/
structure AttemptData where
  count : Nat
  first_attempt : Int
  last_attempt : Int
  locked_until : Option Int
  deriving Repr, DecidableEq

/-- The `SecurityService.failed_attempts` dict, as an association list. -/
abbrev LockoutState := List (String × AttemptData)

/-- The summary `SecurityService.track_failed_attempt` returns. -/
structure TrackResult where
  locked : Bool
  attempts : Nat
  deriving Repr, DecidableEq

def updateAttempt (fa : LockoutState) (k : String) (v : AttemptData) : LockoutState :=
  fa.map (fun q => if q.1 == k then (k, v) else q)

/-- `SecurityService.track_failed_attempt`: create the entry lazily,
increment its count and set `last_attempt`; on reaching the threshold
of `max_failed_attempts = 5`, set `locked_until = now + 15 * 60` and
report locked. -/
def track_failed_attempt (fa : LockoutState) (identifier : String) (now : Int) :
    TrackResult × LockoutState :=
  let fa1 : LockoutState :=
    match fa.find? (fun q => q.1 == identifier) with
    | some _ => fa
    | none => fa ++ [(identifier, (⟨0, now, now, none⟩ : AttemptData))]
  match fa1.find? (fun q => q.1 == identifier) with
  | some q =>
    let d1 : AttemptData := { q.2 with count := q.2.count + 1, last_attempt := now }
    if 5 ≤ d1.count then
      let d2 : AttemptData := { d1 with locked_until := some (now + 15 * 60) }
      (⟨true, d2.count⟩, updateAttempt fa1 identifier d2)
    else (⟨false, d1.count⟩, updateAttempt fa1 identifier d1)
  | none => (⟨false, 0⟩, fa1)

/-- Outcomes of the `POST /auth/login` route body, one per exit point;
`accountLocked` is included because the spec's orchestrator demands it,
and `internalError` stands for an uncaught exception. -/
inductive LoginResult where
  | invalidCredentials
  | accountInactive
  | accountLocked
  | internalError
  | success (pair : TokenPair)
  deriving Repr, DecidableEq

/-- Modelled from the spec: `UserRepository.update_last_login` lives in
`..models.repositories`, not under src/; per spec section 3 the
identity is mutated on login. -/
def update_last_login (db : DB) (uid : String) (now : Int) : DB :=
  { db with users := db.users.map (fun u => if u.id == uid then { u with last_login := some now } else u) }

/-- The `POST /auth/login` route body (src/backend/auth/auth_routes.py,
after the rate-limit decorator admits the request): look the user up by
email, verify the password, reject inactive accounts, then issue a
token pair and update `last_login`.  The `SecurityService` lockout
state is threaded through to record what the flow does with it: the
route neither consults nor updates it. -/
def login (cfg : Config) (secret : String) (db : DB) (ls : LockoutState)
    (email password : String) (now : Int) (freshJti freshTok : String) :
    LoginResult × DB × LockoutState :=
  match db.users.find? (fun u => u.email == email) with
  | none => (.invalidCredentials, db, ls)
  | some u =>
    match AuthHandler.verify_password password u.hashed_password with
    | .error _ => (.internalError, db, ls)
    | .ok ok =>
      if !ok then (.invalidCredentials, db, ls)
      else if !u.is_active then (.accountInactive, db, ls)
      else
        let (pair, db1) := create_token_pair cfg secret u db now freshJti freshTok
        let db2 := update_last_login db1 u.id now
        (.success pair, db2, ls)

/-- One failed login against `sampleDB` (wrong password), returning the
store and lockout state it leaves behind. -/
def failedLoginStep (s : DB × LockoutState) : DB × LockoutState :=
  (login ⟨30, 30⟩ "sk" s.1 s.2 "a@b.c" "badpw" 0 "J0" "F0").2

/-- Counterexample to claim C7: five failed logins for "a@b.c" leave
the store and the lockout state exactly as they were (no failure is
recorded anywhere), and the 6th attempt with the correct password
succeeds with a fresh pair instead of returning the account-locked
error. -/
theorem c7_counterexample :
    failedLoginStep (failedLoginStep (failedLoginStep (failedLoginStep
        (failedLoginStep (sampleDB, []))))) = (sampleDB, []) ∧
    (login ⟨30, 30⟩ "sk" sampleDB [] "a@b.c" "Right1!" 10 "J6" "F6").1
      = .success ⟨.signed "sk" ⟨"u1", "a@b.c", [], 1810, 10, "access", some "J6"⟩,
          "F6", "bearer", 1800⟩ ∧
    (login ⟨30, 30⟩ "sk" sampleDB [] "a@b.c" "Right1!" 10 "J6" "F6").2.2 = [] :=
  ⟨rfl, rfl, rfl⟩

/-- Claim C7 amended: the login flow performs no lockout accounting at
all — it returns the lockout state unchanged on every path and never
produces the account-locked outcome, so any number of failed attempts
leaves a later correct-password attempt unaffected
(`SecurityService.track_failed_attempt` exists but nothing in the login
path calls it). -/
theorem c7_login_ignores_lockout (cfg : Config) (secret : String) (db : DB)
    (ls : LockoutState) (email password : String) (now : Int) (fj ft : String) :
    (login cfg secret db ls email password now fj ft).2.2 = ls ∧
    (login cfg secret db ls email password now fj ft).1 ≠ .accountLocked := by
  cases hfind : db.users.find? (fun u => u.email == email) with
  | none => simp [login, hfind]
  | some u =>
    cases hv : AuthHandler.verify_password password u.hashed_password with
    | error s => simp [login, hfind, hv]
    | ok b =>
      cases b with
      | false => simp [login, hfind, hv]
      | true =>
        cases hact : u.is_active with
        | false => simp [login, hfind, hv, hact]
        | true => simp [login, hfind, hv, hact, create_token_pair_eq]

/-- The redis counter key of the `rate_limit` decorator: its value and
the instant it expires. -/
structure RateKey where
  count : Nat
  expiresAt : Int
  deriving Repr, DecidableEq

/-- One pass through the `rate_limit` decorator wrapper
(src/backend/auth/auth_handler.py): read the counter (an expired key
reads as absent); if it already reached `max_requests`, reject without
touching the key; otherwise `INCR` and reset its expiry to
`now + window_seconds` — note the expiry is reset on every counted
request. -/
def rateLimitStep (maxRequests : Nat) (window : Int) (st : Option RateKey) (now : Int) :
    Bool × Option RateKey :=
  let current : Option Nat :=
    match st with
    | some k => if now < k.expiresAt then some k.count else none
    | none => none
  match current with
  | some c =>
    if maxRequests ≤ c then (false, st)
    else (true, some ⟨c + 1, now + window⟩)
  | none => (true, some ⟨1, now + window⟩)

/-- Run the decorator over a list of request instants. -/
def runRateLimiter (maxRequests : Nat) (window : Int) :
    List Int → Option RateKey → List Bool × Option RateKey
  | [], st => ([], st)
  | t :: ts, st =>
    let r1 := rateLimitStep maxRequests window st t
    let rest := runRateLimiter maxRequests window ts r1.2
    (r1.1 :: rest.1, rest.2)

/-- One entry of `SecurityManager.rate_limit_storage`
(src/backend/utils/security.py). -/
structure RateEntry where
  requests : List Int
  blocked_until : Option Int
  deriving Repr, DecidableEq

/-- `SecurityManager.check_rate_limit`: reject while `blocked_until` is
in the future (without cleaning the log); otherwise drop requests older
than the window, and either record a violation — blocking the key for a
further full window from `now` — or append the request and allow it. -/
def check_rate_limit (limit : Nat) (window_minutes : Int) (u : RateEntry) (now : Int) :
    Bool × RateEntry :=
  if (match u.blocked_until with | some b => decide (now < b) | none => false) then (false, u)
  else
    let reqs := u.requests.filter (fun t => decide (now - window_minutes * 60 < t))
    if limit ≤ reqs.length then (false, ⟨reqs, some (now + window_minutes * 60)⟩)
    else (true, ⟨reqs ++ [now], u.blocked_until⟩)

/-- Run `check_rate_limit` over a list of request instants. -/
def runCheckRateLimit (limit : Nat) (window_minutes : Int) :
    List Int → RateEntry → List Bool × RateEntry
  | [], u => ([], u)
  | t :: ts, u =>
    let r1 := check_rate_limit limit window_minutes u t
    let rest := runCheckRateLimit limit window_minutes ts r1.2
    (r1.1 :: rest.1, rest.2)

/-- Counterexample to claim C8 (limit 10, window 60 s, as in the spec's
own scenario).  Decorator: ten requests at instants 0..9 are allowed;
the 11th at 50 is rejected; a request at 65 — after the window measured
from the first request has elapsed (0 + 60 ≤ 65) — is still rejected,
because each counted request reset the key's expiry (last reset at 9,
so the key lives until 69).  `check_rate_limit` behaves analogously:
the violation at instant 5 blocks the key until 65, so a request at 61
is rejected although the first-request window ended at 60. -/
theorem c8_counterexample :
    (runRateLimiter 10 60 [0, 1, 2, 3, 4, 5, 6, 7, 8, 9, 50, 65] none).1
      = [true, true, true, true, true, true, true, true, true, true, false, false] ∧
    ((0 : Int) + 60 ≤ 65) ∧
    (runCheckRateLimit 10 1 [0, 0, 0, 0, 0, 0, 0, 0, 0, 0, 5, 61] ⟨[], none⟩).1
      = [true, true, true, true, true, true, true, true, true, true, false, false] ∧
    ((0 : Int) + 60 ≤ 61) :=
  ⟨rfl, by decide, rfl, by decide⟩

/-- Claim C8 amended: the decorator's counter window is anchored at the
last counted request, not the first — a fresh or expired key starts a
new window at `now`; an allowed request increments the count and resets
the expiry to `now + window`; a rejected request leaves the key (and
hence its expiry) unchanged.  `check_rate_limit` keeps a sliding log
and, once a call finds the limit reached, blocks the key for a further
full window from the violation instant. -/
theorem c8_window_anchored_at_last (maxRequests : Nat) (window : Int) (k : RateKey)
    (now : Int) (limit : Nat) (wmin : Int) (u : RateEntry) :
    rateLimitStep maxRequests window none now = (true, some ⟨1, now + window⟩) ∧
    (now < k.expiresAt → k.count < maxRequests →
      rateLimitStep maxRequests window (some k) now
        = (true, some ⟨k.count + 1, now + window⟩)) ∧
    (now < k.expiresAt → maxRequests ≤ k.count →
      rateLimitStep maxRequests window (some k) now = (false, some k)) ∧
    (k.expiresAt ≤ now →
      rateLimitStep maxRequests window (some k) now = (true, some ⟨1, now + window⟩)) ∧
    (∀ b : Int, u.blocked_until = some b → now < b →
      check_rate_limit limit wmin u now = (false, u)) ∧
    (u.blocked_until = none →
      limit ≤ (u.requests.filter (fun t => decide (now - wmin * 60 < t))).length →
      check_rate_limit limit wmin u now
        = (false, ⟨u.requests.filter (fun t => decide (now - wmin * 60 < t)),
                   some (now + wmin * 60)⟩)) := by
  refine ⟨rfl, ?_, ?_, ?_, ?_, ?_⟩
  · intro h1 h2
    simp [rateLimitStep, h1, Nat.not_le.mpr h2]
  · intro h1 h2
    simp [rateLimitStep, h1, h2]
  · intro h
    simp [rateLimitStep, not_lt.mpr h]
  · intro b hb hlt
    simp [check_rate_limit, hb, hlt]
  · intro hb hlen
    simp [check_rate_limit, hb, hlen]

/-- Witness for the amended C8: a fresh key at instant 0, a counted
request at 10, and a rejection while the count is at the limit. -/
theorem c8_amended_witness :
    rateLimitStep 2 60 none 0 = (true, some ⟨1, 60⟩) ∧
    rateLimitStep 2 60 (some ⟨1, 60⟩) 10 = (true, some ⟨2, 70⟩) ∧
    rateLimitStep 2 60 (some ⟨2, 70⟩) 20 = (false, some ⟨2, 70⟩) ∧
    check_rate_limit 2 1 ⟨[0, 0], some 65⟩ 20 = (false, ⟨[0, 0], some 65⟩) :=
  ⟨(c8_window_anchored_at_last 2 60 ⟨2, 70⟩ 0 2 1 ⟨[0, 0], some 65⟩).1,
   (c8_window_anchored_at_last 2 60 ⟨1, 60⟩ 10 2 1 ⟨[0, 0], some 65⟩).2.1
     (by decide) (by decide),
   (c8_window_anchored_at_last 2 60 ⟨2, 70⟩ 20 2 1 ⟨[0, 0], some 65⟩).2.2.1
     (by decide) (by decide),
   (c8_window_anchored_at_last 2 60 ⟨2, 70⟩ 20 2 1 ⟨[0, 0], some 65⟩).2.2.2.2.1
     65 rfl (by decide)⟩

/-- Models `base64.b64encode` abstractly: a tag prepended to the text.
The only properties the code relies on are that encoding is injective,
decodable, and recognizable (`_is_base64` re-encodes the decode and
compares), so a tagged representation is faithful. -/
def b64encode (s : String) : String :=
  String.mk ('b' :: '6' :: '4' :: '$' :: s.data)

/-- Models `base64.b64decode` with the `_is_base64` recognizer: strings
carrying the tag decode to their payload, everything else fails. -/
def b64decodeQ (s : String) : Option String :=
  match s.data with
  | 'b' :: '6' :: '4' :: '$' :: rest => some (String.mk rest)
  | _ => none

/-- `SecurityManager._is_base64`:
`b64encode(b64decode(s)) == s`, false when decoding throws. -/
def is_base64 (s : String) : Bool :=
  (b64decodeQ s).isSome

/-- `SecurityManager.encrypt_api_key`: plain base64 encoding ("NOT
secure", per its own comment); empty input maps to the empty string. -/
def encrypt_api_key (api_key : String) : String :=
  if api_key = "" then "" else b64encode api_key

/-- `SecurityManager.decrypt_api_key`: empty input yields the empty
string; input that is not well-formed base64 is returned unchanged
("check if it's already in plain text"); otherwise the base64 decode of
the input is returned — whatever it decodes to.  No failure outcome is
ever reported. -/
def decrypt_api_key (encoded_key : String) : String :=
  if encoded_key = "" then ""
  else if !is_base64 encoded_key then encoded_key
  else
    match b64decodeQ encoded_key with
    | some d => d
    | none => ""

/-- A Fernet token as `cryptography.fernet` sees it: either a
well-formed token produced under `key`, or bytes that fail parsing or
authentication (`garbage` also covers strings the base64 layer of
`decrypt_data` rejects, since both raise exceptions the method
catches). -/
inductive Ciphertext where
  | fernet (key : String) (plaintext : String)
  | garbage (s : String)
  deriving Repr, DecidableEq

/-- Models `Fernet(key).decrypt`: authenticated decryption — succeeds
exactly on tokens produced under the same key. -/
def fernetDecrypt (key : String) : Ciphertext → Option String
  | .fernet k p => if k = key then some p else none
  | .garbage _ => none

/-- `SecurityService.encrypt_data` with the default (master) key. -/
def encrypt_data (masterKey : String) (data : String) : Ciphertext :=
  .fernet masterKey data

/-- `SecurityService.decrypt_data` with the default (master) key: any
exception from the base64 or Fernet layer is caught and reported as a
failure dict (`success: False`), modelled as an error outcome. -/
def decrypt_data (masterKey : String) (c : Ciphertext) : Except String String :=
  match fernetDecrypt masterKey c with
  | some p => .ok p
  | none => .error "Decryption error"

/-- Counterexample to claim C9: `decrypt_api_key` applied to a string
that is not well-formed base64 (so certainly not produced by
`encrypt_api_key`) silently returns the input itself as if it were
plaintext, instead of failing with a decryption error. -/
theorem c9_counterexample :
    decrypt_api_key "hello!" = "hello!" ∧
    is_base64 "hello!" = false ∧
    ("hello!" : String) ≠ "" :=
  ⟨rfl, rfl, by decide⟩

/-- Claim C9 amended: `SecurityService.decrypt_data` does fail cleanly
on any ciphertext the active key does not authenticate, and
round-trips its own encryption; but `SecurityManager.decrypt_api_key`
is unauthenticated base64 — it returns non-base64 input unchanged and
decodes any tagged input, and never reports a failure. -/
theorem c9_decrypt_behavior (mkey : String) (c : Ciphertext) (s p : String)
    (hg : fernetDecrypt mkey c = none)
    (hnb : is_base64 s = false) (hs : s ≠ "") :
    decrypt_data mkey c = .error "Decryption error" ∧
    decrypt_data mkey (encrypt_data mkey p) = .ok p ∧
    decrypt_api_key s = s ∧
    decrypt_api_key (encrypt_api_key p) = p := by
  refine ⟨by simp [decrypt_data, hg], by simp [decrypt_data, encrypt_data, fernetDecrypt], ?_, ?_⟩
  · simp [decrypt_api_key, hnb, hs]
  · by_cases hp : p = ""
    · subst hp; rfl
    · have henc : encrypt_api_key p = b64encode p := by simp [encrypt_api_key, hp]
      have hne : b64encode p ≠ "" := by
        intro h
        have := congrArg String.data h
        simp [b64encode] at this
      have hdec : b64decodeQ (b64encode p) = some p := by
        simp [b64decodeQ, b64encode]
      rw [henc]
      simp [decrypt_api_key, hne, is_base64, hdec]

/-- Witness for the amended C9 at a concrete garbage ciphertext and a
concrete non-base64 string. -/
theorem c9_amended_witness :
    decrypt_data "master" (.garbage "zzz") = .error "Decryption error" ∧
    decrypt_data "master" (encrypt_data "master" "topsecret") = .ok "topsecret" ∧
    decrypt_api_key "hello there" = "hello there" ∧
    decrypt_api_key (encrypt_api_key "topsecret") = "topsecret" :=
  c9_decrypt_behavior "master" (.garbage "zzz") "hello there" "topsecret"
    rfl rfl (by decide)

end OpenClip
